import Mathlib

/-!
# Verification of the blank/silence classification engine

Shallow embedding of the classification engine of this repository:
`src/ai/blank_classifier.py` (class `BlankClassifier`) and
`src/audio/silence_detector.py` (class `SilenceDetector`).

Modelling conventions:
* Audio samples and times are real numbers (machine floats modelled as `ℝ`).
* `np.mean` of an empty array is NaN in numpy.  Where a mean only feeds a
  comparison guard (every guard in the two classifiers), NaN makes the
  comparison `False`; the total function `npMean`, which yields `0` on `[]`,
  takes the same branch there, and a comment at each use site records why.
  Where a mean's *value* flows into the feature vector we use the NaN-precise
  `Option ℝ` variants (`none` = NaN), so NaN propagation is tracked exactly.
* Python slicing `y[:n]` is `List.take n`, and `y[-n:]` is `lastSlice n`:
  note that in Python `y[-0:]` is the *whole* list, which `lastSlice` mirrors.
* librosa's spectral routines and sklearn's fitted scaler/model are external
  libraries, not code of this repository; they enter as opaque parameters
  (`LibrosaEnv`, `Scaler`, `RFModel`, `FitEnv`).
-/

namespace BlankEngine

/-- A decoded audio file as produced by `librosa.load`: sample buffer plus
native sample rate (`sr=None` keeps the file's rate, a positive integer). -/
structure AudioFile where
  samples : List ℝ
  sr : ℕ

/-- `np.mean`, totalised: `[] ↦ 0` (numpy yields NaN there; see module note). -/
noncomputable def npMean (xs : List ℝ) : ℝ := xs.sum / xs.length

/-- `np.mean` with numpy's NaN-on-empty behaviour tracked (`none` = NaN). -/
noncomputable def npMeanNan (xs : List ℝ) : Option ℝ :=
  if xs.isEmpty then none else some (xs.sum / xs.length)

/-- `np.sqrt(np.mean(xs**2))`, the RMS energy, totalised (`[] ↦ 0`). -/
noncomputable def rms (xs : List ℝ) : ℝ :=
  Real.sqrt (npMean (xs.map (fun x => x ^ 2)))

/-- RMS energy with NaN tracking: NaN (i.e. `none`) on an empty array. -/
noncomputable def rmsNan (xs : List ℝ) : Option ℝ :=
  (npMeanNan (xs.map (fun x => x ^ 2))).map Real.sqrt

/-- Python slice `xs[-n:]`.  For `n = 0` Python returns the whole list
(`-0 == 0`), and for `n ≥ len xs` it also returns the whole list. -/
def lastSlice (n : ℕ) (xs : List ℝ) : List ℝ :=
  if n = 0 then xs else xs.drop (xs.length - n)

/-- `librosa.load(file, sr=None, offset, duration)`: the slice of the sample
buffer starting at `offset` seconds, `duration` seconds long.  librosa turns
times into sample counts; we use `Nat.floor`, which agrees with it on every
concrete instantiation in this development (all exact). -/
noncomputable def loadSeg (a : AudioFile) (offset dur : ℝ) : List ℝ :=
  (a.samples.drop ⌊offset * (a.sr : ℝ)⌋₊).take ⌊dur * (a.sr : ℝ)⌋₊

/-- The audio both rule classifiers load around an interval `[s, e]`:
`librosa.load(audio_file, sr=None, offset=max(0, s - 1), duration=(e-s) + 2)`
(identical in `classify_blank_rules` and `classify_silence_type`). -/
noncomputable def loadY (a : AudioFile) (s e : ℝ) : List ℝ :=
  loadSeg a (max 0 (s - 1)) ((e - s) + 2)

/-! ## Rule-based classifier (`BlankClassifier.classify_blank_rules`) -/

/-- The min/max RMS ratio of the two `sr//4`-sample edge windows of the
loaded audio `y` (rule 3 of `classify_blank_rules`). -/
noncomputable def edgeRatio (y : List ℝ) (sr : ℕ) : ℝ :=
  min (rms (y.take (sr / 4))) (rms (lastSlice (sr / 4) y)) /
    max (rms (y.take (sr / 4))) (rms (lastSlice (sr / 4) y))

/-- Rule 3 of `classify_blank_rules`, flattened: the nested guards
`len(y) > sr`, `len(y) > context_window * 2`, `rms_start > 0.001 and
rms_end > 0.001`, `ratio > 0.3` (with `context_window = sr // 4`).
On `sr < 4` the edge windows are empty and numpy's RMS is NaN, so the
comparison is `False`; `rms` then yields `0 > 0.001 = False`: same branch. -/
noncomputable def rule3 (y : List ℝ) (sr : ℕ) : Prop :=
  y.length > sr ∧ y.length > (sr / 4) * 2 ∧
    rms (y.take (sr / 4)) > 0.001 ∧ rms (lastSlice (sr / 4) y) > 0.001 ∧
    edgeRatio y sr > 0.3

noncomputable instance (y : List ℝ) (sr : ℕ) : Decidable (rule3 y sr) := by
  unfold rule3; exact inferInstance

/-- `BlankClassifier.classify_blank_rules(audio_file, start_time, end_time)`:
the five-rule cascade.  A rule that does not `return` falls through, so the
cascade is a chain of `if`s. -/
noncomputable def classify_blank_rules (a : AudioFile) (start_time end_time : ℝ) :
    String :=
  let duration := end_time - start_time
  let y := loadY a start_time end_time
  if duration < 0.5 then "natural"
  else if duration > 10 then "abnormal"
  else if rule3 y a.sr then "natural"
  else if duration > 3 then "abnormal"
  else "natural"

/-! ## Silence pipeline classifier (`SilenceDetector.classify_silence_type`) -/

/-- The min/max RMS ratio of the two `int(sr*0.25)`-sample edge windows
(`fade_ratio` in `classify_silence_type`). -/
noncomputable def sdRatio (y : List ℝ) (sr : ℕ) : ℝ :=
  min (rms (y.take ⌊(sr : ℝ) * 0.25⌋₊)) (rms (lastSlice ⌊(sr : ℝ) * 0.25⌋₊ y)) /
    max (rms (y.take ⌊(sr : ℝ) * 0.25⌋₊)) (rms (lastSlice ⌊(sr : ℝ) * 0.25⌋₊ y))

/-- The fade check of `classify_silence_type`, flattened: guards
`len(y) > sr * 0.5`, `start_rms > 0.001 and end_rms > 0.001`,
`fade_ratio > 0.3`.  This check runs *before* any duration rule. -/
noncomputable def sdFade (y : List ℝ) (sr : ℕ) : Prop :=
  (y.length : ℝ) > (sr : ℝ) * 0.5 ∧
    rms (y.take ⌊(sr : ℝ) * 0.25⌋₊) > 0.001 ∧
    rms (lastSlice ⌊(sr : ℝ) * 0.25⌋₊ y) > 0.001 ∧
    sdRatio y sr > 0.3

noncomputable instance (y : List ℝ) (sr : ℕ) : Decidable (sdFade y sr) := by
  unfold sdFade; exact inferInstance

/-- `SilenceDetector.classify_silence_type(audio_file, silence_segment)`.
The whole body is wrapped in `try/except`; a loading/analysis failure is
modelled by the `none` input and returns the string `"unknown"`. -/
noncomputable def classify_silence_type (loaded : Option AudioFile)
    (seg : ℝ × ℝ) : String :=
  match loaded with
  | none => "unknown"
  | some a =>
    let duration := seg.2 - seg.1
    let y := loadY a seg.1 seg.2
    if sdFade y a.sr then "natural"
    else if duration < 1.0 then "natural"
    else if duration > 5.0 then "abnormal"
    else "natural"

/-! ## NaN-tracking float arithmetic

`extract_features` feeds raw numpy values into the feature vector, so NaN must
be tracked there.  `Option ℝ` with `none` = NaN; every Python/numpy comparison
involving NaN is `False`, and Python's built-in `max(a, b)` returns `b` when
`b > a` and otherwise `a`, which is what `pymax` encodes. -/

/-- Subtraction on possibly-NaN floats. -/
noncomputable def fsub : Option ℝ → Option ℝ → Option ℝ
  | some a, some b => some (a - b)
  | _, _ => none

/-- `abs` on possibly-NaN floats. -/
noncomputable def fabsF : Option ℝ → Option ℝ
  | some a => some |a|
  | none => none

/-- Division on possibly-NaN floats (only applied with positive divisors). -/
noncomputable def fdivF : Option ℝ → Option ℝ → Option ℝ
  | some a, some b => some (a / b)
  | _, _ => none

/-- Strict `>` on possibly-NaN floats: any comparison with NaN is `False`. -/
noncomputable def fgt (x y : Option ℝ) : Prop :=
  match x, y with
  | some a, some b => a > b
  | _, _ => False

noncomputable instance (x y : Option ℝ) : Decidable (fgt x y) := by
  unfold fgt; exact match x, y with
    | some a, some b => inferInstanceAs (Decidable (a > b))
    | some _, none => inferInstanceAs (Decidable False)
    | none, _ => inferInstanceAs (Decidable False)

/-- Python's `max(a, b)`: returns `b` if `b > a`, else `a` (so `max(a, NaN)`
is `a`, while `max(NaN, b)` is NaN). -/
noncomputable def pymax (a b : Option ℝ) : Option ℝ :=
  if fgt b a then b else a

/-! ## Feature extraction (`BlankClassifier.extract_features` and helpers) -/

/-- `np.diff`: first differences of consecutive entries. -/
noncomputable def npDiff (xs : List ℝ) : List ℝ := xs.zipWith (fun a b => b - a) xs.tail

/-- `np.std`: population standard deviation. -/
noncomputable def npStd (xs : List ℝ) : ℝ :=
  Real.sqrt (npMean (xs.map (fun x => (x - npMean xs) ^ 2)))

/-- `np.clip(x, lo, hi)`. -/
noncomputable def npClip (x lo hi : ℝ) : ℝ := min (max x lo) hi

/-- `BlankClassifier._detect_fade(audio_segment)`: split into 10 windows of
`len // 10` samples, keep each window whose end fits, take RMS per window,
and score the consistency of the first differences.  Segments shorter than
100 samples return 0 immediately. -/
noncomputable def detect_fade (xs : List ℝ) : ℝ :=
  if xs.length < 100 then 0
  else
    let window_size := xs.length / 10
    let windows := (List.range 10).filterMap (fun i =>
      if i * window_size + window_size ≤ xs.length then
        some (rms ((xs.drop (i * window_size)).take window_size))
      else none)
    if windows.length < 2 then 0
    else
      let diffs := npDiff windows
      let avg_change := npMean (diffs.map (fun d => |d|))
      if avg_change > 0 then
        npClip (1 - npStd diffs / (avg_change + 1e-6)) 0 1
      else 0

/-- `BlankClassifier._calculate_transition_abruptness(before, after)`, with
NaN tracked: `window_size = min(len(before), len(after), 2048)`, energies are
the RMS of `before[-window_size:]` and `after[:window_size]` (recall Python's
`before[-0:]` is all of `before`, so an empty `after` gives `energy_after` =
NaN while `energy_before` is the RMS of the whole `before`). -/
noncomputable def calculate_transition_abruptness (before after : List ℝ) :
    Option ℝ :=
  let window_size := min (min before.length after.length) 2048
  let energy_before := rmsNan (lastSlice window_size before)
  let energy_after := rmsNan (after.take window_size)
  if fgt (pymax energy_before energy_after) (some 0) then
    fdivF (fabsF (fsub energy_before energy_after))
      (pymax energy_before energy_after)
  else some 0

/-- The librosa spectral routines used by `extract_features`.  They are
third-party DSP code, not part of this repository, so they are opaque
parameters of the embedding. -/
structure LibrosaEnv where
  spectral_centroid : List ℝ → ℕ → ℝ
  spectral_rolloff : List ℝ → ℕ → ℝ
  zero_crossing_rate : List ℝ → ℝ

/-- `BlankClassifier.extract_features(audio_segment, sr, context_before,
context_after)`: the 10-slot feature vector, built by successive appends
exactly as in the source.  Slots are possibly-NaN floats. -/
noncomputable def extract_features (lib : LibrosaEnv) (audio_segment : List ℝ)
    (sr : ℕ) (context_before context_after : Option (List ℝ)) :
    List (Option ℝ) :=
  [some ((audio_segment.length : ℝ) / (sr : ℝ)), rmsNan audio_segment]
  ++ (if audio_segment.length > 512 then
        [some (lib.spectral_centroid audio_segment sr),
         some (lib.spectral_rolloff audio_segment sr)]
      else [some 0, some 0])
  ++ (match context_before with
      | some c =>
        if c.length > 512 then [rmsNan c, some (detect_fade c)]
        else [some 0, some 0]
      | none => [some 0, some 0])
  ++ (match context_after with
      | some c =>
        if c.length > 512 then [rmsNan c, some (detect_fade c.reverse)]
        else [some 0, some 0]
      | none => [some 0, some 0])
  ++ (match context_before, context_after with
      | some b, some c => [calculate_transition_abruptness b c]
      | _, _ => [some 0])
  ++ (if audio_segment.length > 0 then [some (lib.zero_crossing_rate audio_segment)]
      else [some 0])

/-! ## Classifier state, ML entry point, persistence, training, evaluation -/

/-- A fitted `sklearn.preprocessing.StandardScaler`: opaque fitted transform
over (possibly-NaN) feature vectors. -/
structure Scaler where
  transform : List (Option ℝ) → List (Option ℝ)

/-- A fitted `sklearn.ensemble.RandomForestClassifier`: opaque predictor.
`predict` yields the class (1 = natural, 0 = abnormal), `predict_proba` the
class probabilities. -/
structure RFModel where
  predict : List (Option ℝ) → ℕ
  predict_proba : List (Option ℝ) → List ℝ

/-- The mutable state of a `BlankClassifier`.  The source keeps three fields
`model`, `scaler`, `is_trained` that are always set together (construction
leaves them `None/None/False`; `load_model` and `train_model` set all three),
so they are bundled: `trainedModel = some (model, scaler)` iff
`is_trained = True`. -/
structure ClassifierState where
  trainedModel : Option (RFModel × Scaler)

/-- `self.is_trained`. -/
def ClassifierState.is_trained (st : ClassifierState) : Bool :=
  st.trainedModel.isSome

/-- The segment/context slicing shared verbatim by `classify_blank_ml`
(lines 168–182) and `train_model` (lines 285–297): load the whole file,
cut `y[start_sample:end_sample]` and the 1-second contexts
`y[max(0, start-sr):start]` and `y[end:min(len(y), end+sr)]`, then call
`extract_features`.  `int(t * sr)` truncates; times are nonnegative, so this
is `Nat.floor`.  Python's `y[a:b]` is `drop a` then `take (b - a)`, and the
`max(0, ·)` clamp is ℕ subtraction. -/
noncomputable def segmentFeatures (lib : LibrosaEnv) (a : AudioFile)
    (start_time end_time : ℝ) : List (Option ℝ) :=
  let sr := a.sr
  let y := a.samples
  let start_sample := ⌊start_time * (sr : ℝ)⌋₊
  let end_sample := ⌊end_time * (sr : ℝ)⌋₊
  let silence_segment := (y.drop start_sample).take (end_sample - start_sample)
  let context_before :=
    (y.drop (start_sample - sr)).take (start_sample - (start_sample - sr))
  let context_after :=
    (y.drop end_sample).take (min y.length (end_sample + sr) - end_sample)
  extract_features lib silence_segment sr (some context_before)
    (some context_after)

/-- `BlankClassifier.classify_blank_ml(audio_file, start_time, end_time)`:
falls back to the rule cascade when untrained, otherwise extracts features,
scales them and asks the model.  Prediction 1 maps to `"natural"`, anything
else to `"abnormal"`. -/
noncomputable def classify_blank_ml (lib : LibrosaEnv) (st : ClassifierState)
    (a : AudioFile) (start_time end_time : ℝ) : String :=
  match st.trainedModel with
  | none => classify_blank_rules a start_time end_time
  | some (m, sc) =>
    let features := segmentFeatures lib a start_time end_time
    let features_scaled := sc.transform features
    if m.predict features_scaled = 1 then "natural" else "abnormal"

/-- One entry of the pickled dict written by `save_model`. -/
inductive PickleValue where
  | vModel (m : RFModel)
  | vScaler (s : Scaler)

/-- The pickled artifact: a Python dict, as a key/value list. -/
def PickleDict := List (String × PickleValue)

/-- `BlankClassifier.save_model()`: writes nothing when untrained, otherwise
pickles exactly `{'model': self.model, 'scaler': self.scaler}` (the value
returned is what lands in the file; `none` = no file written). -/
def save_model (st : ClassifierState) : Option PickleDict :=
  match st.trainedModel with
  | none => none
  | some (m, s) => some [("model", .vModel m), ("scaler", .vScaler s)]

/-- `BlankClassifier.load_model()`: `none` input = the artifact file does not
exist or unpickling raised (the `except` branch); both leave the state
unchanged and return `False`.  A dict containing `model` and `scaler` entries
sets all three fields and returns `True` — no check of any kind is performed
on the artifact's contents.  (A dict missing a key raises `KeyError`, caught
by the `except`; the source may then have already assigned `self.model`, a
partial write our bundled state cannot represent — no claim depends on it.) -/
def load_model (st : ClassifierState) (file : Option PickleDict) :
    ClassifierState × Bool :=
  match file with
  | none => (st, false)
  | some d =>
    match d.lookup "model", d.lookup "scaler" with
    | some (.vModel m), some (.vScaler s) => (⟨some (m, s)⟩, true)
    | _, _ => (st, false)

/-- A training/evaluation example from the JSON file.  `audio = none` models
`os.path.exists(audio_file)` being false (the unresolvable case the loop
skips); `some a` is the decoded file. -/
structure TrainingExample where
  audio : Option AudioFile
  start_time : ℝ
  end_time : ℝ
  label : String

/-- The sklearn fitting routines used by `train_model` — external library
code, opaque parameters of the embedding. -/
structure FitEnv where
  fitScaler : List (List (Option ℝ)) → Scaler
  fitModel : List (List (Option ℝ)) → List ℕ → RFModel

/-- `BlankClassifier.train_model(training_data_file)`: skip every example
whose file does not resolve, build the feature matrix `X` and label vector
`y` (1 = natural, 0 = abnormal) over the rest; if `X` is empty return
`False` before touching `self.scaler`/`self.model`/`self.is_trained` and
before any `save_model` call.  Otherwise fit, set the trained state, save,
and return `True`.  Result: (new state, return value, whether `save_model`
wrote an artifact). -/
noncomputable def train_model (lib : LibrosaEnv) (fit : FitEnv)
    (st : ClassifierState) (data : List TrainingExample) :
    ClassifierState × Bool × Bool :=
  let retained := data.filterMap (fun ex =>
    ex.audio.map (fun a => (a, ex.start_time, ex.end_time, ex.label)))
  let X := retained.map (fun r => segmentFeatures lib r.1 r.2.1 r.2.2.1)
  let yv := retained.map (fun r => if r.2.2.2 = "natural" then 1 else 0)
  if X.length = 0 then (st, false, false)
  else
    let scaler := fit.fitScaler X
    let X_scaled := X.map scaler.transform
    let model := fit.fitModel X_scaled yv
    (⟨some (model, scaler)⟩, true, true)

/-- What `evaluate_model` accumulates and reports. -/
structure EvalReport where
  correct : ℕ
  total : ℕ
  accuracy : Option ℝ

/-- `BlankClassifier.evaluate_model(test_data_file)`: returns early (`none`)
when untrained; otherwise classifies every resolvable example with
`classify_blank_ml`, counts matches, and computes the accuracy percentage
only under the `total > 0` guard (`accuracy = none` records that the
division was never performed). -/
noncomputable def evaluate_model (lib : LibrosaEnv) (st : ClassifierState)
    (data : List TrainingExample) : Option EvalReport :=
  if st.trainedModel.isNone then none
  else
    let results := data.filterMap (fun ex => ex.audio.map (fun a =>
      (classify_blank_ml lib st a ex.start_time ex.end_time, ex.label)))
    let total := results.length
    let correct := (results.filter (fun r => r.1 == r.2)).length
    some { correct := correct, total := total,
           accuracy := if total > 0 then
             some ((correct : ℝ) / (total : ℝ) * 100) else none }

/-! ## Concrete fixtures for witnesses and counterexamples -/

/-- A trivial librosa environment (concrete instantiation for witnesses). -/
noncomputable def lib0 : LibrosaEnv :=
  ⟨fun _ _ => 0, fun _ _ => 0, fun _ => 0⟩

/-- A trivial fitted model (always predicts class 1). -/
def m0 : RFModel := ⟨fun _ => 1, fun _ => []⟩

/-- A trivial fitted scaler (identity transform). -/
def s0 : Scaler := ⟨id⟩

/-- Trivial sklearn fitting environment. -/
def fit0 : FitEnv := ⟨fun _ => s0, fun _ _ => m0⟩

/-- An empty audio file (rule 1 and rule 2 never look at the samples). -/
def a0 : AudioFile := ⟨[], 0⟩

/-- A constant-amplitude file at 4 Hz: every edge window has RMS 1, so the
fade ratio is exactly 1 — maximal "gradual transition" evidence. -/
def fadeAudio : AudioFile := ⟨List.replicate 100 1, 4⟩

end BlankEngine

namespace BlankEngine

/-! ## Helper lemmas -/

/-- RMS of the one-sample list `[1]` is 1. -/
theorem rms_one : rms [(1 : ℝ)] = 1 := by
  unfold rms npMean
  norm_num

/-- NaN-tracked RMS of the one-sample list `[1]` is 1. -/
theorem rmsNan_one : rmsNan [(1 : ℝ)] = some 1 := by
  unfold rmsNan npMeanNan
  norm_num

/-- NaN-tracked RMS of the empty array is NaN. -/
theorem rmsNan_nil : rmsNan ([] : List ℝ) = none := by
  unfold rmsNan npMeanNan
  rfl

/-- The number of retained (resolvable) examples. -/
theorem length_filterMap_audio {β : Type} (f : AudioFile → TrainingExample → β)
    (data : List TrainingExample) :
    (data.filterMap (fun ex => ex.audio.map (f · ex))).length =
      data.countP (fun ex => ex.audio.isSome) := by
  induction data with
  | nil => rfl
  | cons ex tl ih =>
    cases hx : ex.audio <;>
      simp [List.filterMap_cons, hx, ih, List.countP_cons]

/-! ## C9 -/

/-- C9: whenever no trained model is loaded (`is_trained` is false),
`classify_blank_ml` returns exactly the result of `classify_blank_rules`
on the same input: in the untrained state the two entry points agree as
functions. -/
theorem c9_untrained_delegates_to_rules (lib : LibrosaEnv)
    (st : ClassifierState) (a : AudioFile) (s e : ℝ)
    (h : st.is_trained = false) :
    classify_blank_ml lib st a s e = classify_blank_rules a s e := by
  have h2 : st.trainedModel.isSome = false := h
  rcases hst : st.trainedModel with _ | p
  · unfold classify_blank_ml
    rw [hst]
  · rw [hst] at h2
    exact absurd h2 (by simp)

theorem c9_witness :
    (⟨none⟩ : ClassifierState).is_trained = false ∧
      classify_blank_ml lib0 ⟨none⟩ a0 0 1 = classify_blank_rules a0 0 1 :=
  ⟨rfl, c9_untrained_delegates_to_rules lib0 ⟨none⟩ a0 0 1 rfl⟩

/-! ## C7 -/

/-- C7: when every training example is skipped because its audio file cannot
be resolved, `train_model` returns the failure value `False` without raising,
leaves the classifier state unchanged, and never calls `save_model` (so no
artifact is produced and a previously persisted artifact is untouched). -/
theorem c7_train_all_skipped (lib : LibrosaEnv) (fit : FitEnv)
    (st : ClassifierState) (data : List TrainingExample)
    (h : ∀ ex ∈ data, ex.audio = none) :
    train_model lib fit st data = (st, false, false) := by
  unfold train_model
  have hnil : data.filterMap (fun ex =>
      ex.audio.map (fun a => (a, ex.start_time, ex.end_time, ex.label))) = [] := by
    rw [List.filterMap_eq_nil_iff]
    intro ex hex
    rw [h ex hex]
    rfl
  simp [hnil]

theorem c7_witness :
    train_model lib0 fit0 ⟨none⟩ [⟨none, 0, 1, "natural"⟩] =
      (⟨none⟩, false, false) :=
  c7_train_all_skipped lib0 fit0 ⟨none⟩ _ (by
    intro ex hex
    simp only [List.mem_singleton] at hex
    rw [hex])

/-! ## C8 -/

/-- C8: in the trained state, `evaluate_model` reports counts accumulated
over exactly the resolvable examples, and with zero resolvable examples it
reports `correct = 0`, `total = 0` and never performs the accuracy division
(`accuracy = none`), without raising. -/
theorem c8_evaluate_zero_resolvable (lib : LibrosaEnv) (st : ClassifierState)
    (data : List TrainingExample) (ht : st.is_trained = true) :
    (∃ r, evaluate_model lib st data = some r ∧
      r.total = data.countP (fun ex => ex.audio.isSome)) ∧
    ((∀ ex ∈ data, ex.audio = none) →
      evaluate_model lib st data = some ⟨0, 0, none⟩) := by
  have hne : st.trainedModel.isNone = false := by
    have h2 : st.trainedModel.isSome = true := ht
    rcases hst : st.trainedModel with _ | p
    · rw [hst] at h2
      exact absurd h2 (by simp)
    · rfl
  constructor
  · unfold evaluate_model
    rw [if_neg (by rw [hne]; exact Bool.false_ne_true)]
    refine ⟨_, rfl, ?_⟩
    exact length_filterMap_audio
      (fun a ex => (classify_blank_ml lib st a ex.start_time ex.end_time, ex.label))
      data
  · intro h
    unfold evaluate_model
    rw [if_neg (by rw [hne]; exact Bool.false_ne_true)]
    have hnil : data.filterMap (fun ex => ex.audio.map (fun a =>
        (classify_blank_ml lib st a ex.start_time ex.end_time, ex.label))) = [] := by
      rw [List.filterMap_eq_nil_iff]
      intro ex hex
      rw [h ex hex]
      rfl
    simp [hnil]

theorem c8_witness :
    evaluate_model lib0 ⟨some (m0, s0)⟩ [⟨none, 0, 1, "natural"⟩] =
      some ⟨0, 0, none⟩ :=
  (c8_evaluate_zero_resolvable lib0 ⟨some (m0, s0)⟩ _ rfl).2 (by
    intro ex hex
    simp only [List.mem_singleton] at hex
    rw [hex])

/-! ## C4 -/

/-- C4 counterexample: the artifact actually persisted by `save_model` for a
trained classifier has exactly the keys `model` and `scaler` — looking up
`schema_version` in it yields nothing, refuting "the persisted model artifact
records a schema_version". -/
theorem c4_counterexample_no_schema_version :
    (save_model ⟨some (m0, s0)⟩).map
      (fun d => List.lookup "schema_version" d) = some none := by
  rfl

/-- C4 (amended): the artifact records only the model and the scaler (no
`schema_version`); `load_model` enters the trained state for any artifact
containing those two entries, performing no schema check at all; a missing
or unreadable artifact leaves the state unchanged, and an untrained
classifier's `classify_blank_ml` falls back to the rule-based path. -/
theorem c4_artifact_has_no_schema_check (m : RFModel) (s : Scaler)
    (st : ClassifierState) (lib : LibrosaEnv) (a : AudioFile) (ts te : ℝ) :
    save_model ⟨none⟩ = none ∧
    (save_model ⟨some (m, s)⟩).map (fun d => d.map Prod.fst) =
      some ["model", "scaler"] ∧
    (save_model ⟨some (m, s)⟩).map
      (fun d => List.lookup "schema_version" d) = some none ∧
    load_model st none = (st, false) ∧
    load_model st (some [("model", .vModel m), ("scaler", .vScaler s)]) =
      (⟨some (m, s)⟩, true) ∧
    (st.is_trained = false →
      classify_blank_ml lib st a ts te = classify_blank_rules a ts te) := by
  refine ⟨rfl, rfl, rfl, rfl, rfl, ?_⟩
  intro h
  have h2 : st.trainedModel.isSome = false := h
  rcases hst : st.trainedModel with _ | p
  · unfold classify_blank_ml
    rw [hst]
  · rw [hst] at h2
    exact absurd h2 (by simp)

theorem c4_witness :
    load_model ⟨none⟩ (some [("model", .vModel m0), ("scaler", .vScaler s0)]) =
      (⟨some (m0, s0)⟩, true) ∧
    classify_blank_ml lib0 ⟨none⟩ a0 0 2 = classify_blank_rules a0 0 2 :=
  ⟨(c4_artifact_has_no_schema_check m0 s0 ⟨none⟩ lib0 a0 0 2).2.2.2.2.1,
   (c4_artifact_has_no_schema_check m0 s0 ⟨none⟩ lib0 a0 0 2).2.2.2.2.2 rfl⟩

/-! ## C10 -/

/-- C10: `_detect_fade` always returns a value in `[0, 1]`, and returns
exactly 0 on every segment shorter than 100 samples (the early return fires
even though such a segment could still be split into ≥ 2 nonempty windows),
so fade scores are nonzero only for segments of at least 100 samples. -/
theorem c10_detect_fade_range (xs : List ℝ) :
    (0 ≤ detect_fade xs ∧ detect_fade xs ≤ 1) ∧
    (xs.length < 100 → detect_fade xs = 0) := by
  constructor
  · simp only [detect_fade]
    split_ifs
    · exact ⟨le_refl 0, zero_le_one⟩
    · exact ⟨le_refl 0, zero_le_one⟩
    · unfold npClip
      exact ⟨le_min (le_max_right _ _) zero_le_one, min_le_right _ _⟩
    · exact ⟨le_refl 0, zero_le_one⟩
  · intro h
    simp only [detect_fade]
    rw [if_pos h]

theorem c10_witness :
    (0 ≤ detect_fade [1] ∧ detect_fade [1] ≤ 1) ∧ detect_fade [1] = 0 :=
  ⟨(c10_detect_fade_range [1]).1, (c10_detect_fade_range [1]).2 (by decide)⟩

/-! ## C1 -/

/-- C1: `classify_blank_rules` is the five-rule cascade evaluated in order
with first match winning: duration < 0.5 s → natural; duration > 10 s →
abnormal; the gradual-transition check (`rule3`: both `sr//4`-sample edge
windows of the loaded audio have RMS > 0.001 and min/max RMS ratio strictly
above 0.3) → natural; duration > 3 s → abnormal; default natural.  A ratio of
exactly 0.3 is not gradual (strict `>`), and for every interval, duration
0.49 s yields natural while duration 10.01 s yields abnormal. -/
theorem c1_rule_cascade (a : AudioFile) (s e : ℝ) :
    (e - s < 0.5 → classify_blank_rules a s e = "natural") ∧
    (0.5 ≤ e - s → 10 < e - s → classify_blank_rules a s e = "abnormal") ∧
    (0.5 ≤ e - s → e - s ≤ 10 → rule3 (loadY a s e) a.sr →
      classify_blank_rules a s e = "natural") ∧
    (0.5 ≤ e - s → e - s ≤ 10 → ¬ rule3 (loadY a s e) a.sr → 3 < e - s →
      classify_blank_rules a s e = "abnormal") ∧
    (0.5 ≤ e - s → e - s ≤ 3 → ¬ rule3 (loadY a s e) a.sr →
      classify_blank_rules a s e = "natural") ∧
    (edgeRatio (loadY a s e) a.sr = 0.3 → ¬ rule3 (loadY a s e) a.sr) ∧
    (classify_blank_rules a s (s + 0.49) = "natural") ∧
    (classify_blank_rules a s (s + 10.01) = "abnormal") := by
  refine ⟨?_, ?_, ?_, ?_, ?_, ?_, ?_, ?_⟩
  · intro h1
    simp only [classify_blank_rules]
    rw [if_pos h1]
  · intro h1 h2
    simp only [classify_blank_rules]
    rw [if_neg (not_lt.mpr h1), if_pos h2]
  · intro h1 h2 h3
    simp only [classify_blank_rules]
    rw [if_neg (not_lt.mpr h1), if_neg (not_lt.mpr h2), if_pos h3]
  · intro h1 h2 h3 h4
    simp only [classify_blank_rules]
    rw [if_neg (not_lt.mpr h1), if_neg (not_lt.mpr h2), if_neg h3, if_pos h4]
  · intro h1 h2 h3
    simp only [classify_blank_rules]
    rw [if_neg (not_lt.mpr h1), if_neg (not_lt.mpr (by linarith)),
      if_neg h3, if_neg (not_lt.mpr h2)]
  · intro h hr
    exact absurd hr.2.2.2.2 (by rw [h]; exact lt_irrefl _)
  · simp only [classify_blank_rules]
    rw [if_pos (by linarith)]
  · simp only [classify_blank_rules]
    rw [if_neg (not_lt.mpr (by linarith)), if_pos (by linarith)]

theorem c1_witness :
    classify_blank_rules a0 0 (3 / 10) = "natural" ∧
    classify_blank_rules a0 2 13 = "abnormal" :=
  ⟨(c1_rule_cascade a0 0 (3 / 10)).1 (by norm_num),
   (c1_rule_cascade a0 2 13).2.1 (by norm_num) (by norm_num)⟩

/-! ## C3 -/

/-- C3 (amended): for every interval of duration above 10 s,
`classify_blank_rules` returns abnormal regardless of the audio (rule 2
precedes the fade check).  `classify_silence_type`, however, evaluates its
gradual-fade check *first*: with the fade evidence absent it returns abnormal
for any duration above 5 s (hence above 10 s), but with fade evidence present
it returns natural no matter how long the silence is. -/
theorem c3_long_duration_abnormal (a : AudioFile) (s e : ℝ) :
    (10 < e - s → classify_blank_rules a s e = "abnormal") ∧
    (10 < e - s → ¬ sdFade (loadY a s e) a.sr →
      classify_silence_type (some a) (s, e) = "abnormal") ∧
    (sdFade (loadY a s e) a.sr →
      classify_silence_type (some a) (s, e) = "natural") := by
  refine ⟨?_, ?_, ?_⟩
  · intro h1
    simp only [classify_blank_rules]
    rw [if_neg (not_lt.mpr (by linarith)), if_pos h1]
  · intro h1 h2
    simp only [classify_silence_type]
    rw [if_neg h2, if_neg (not_lt.mpr (by linarith)), if_pos (by linarith)]
  · intro h1
    simp only [classify_silence_type]
    rw [if_pos h1]

theorem c3_witness :
    classify_blank_rules fadeAudio 0 12 = "abnormal" :=
  (c3_long_duration_abnormal fadeAudio 0 12).1 (by norm_num)

/-- The audio both classifiers load around the interval `[5, 16]` of
`fadeAudio` is 52 samples of constant amplitude 1. -/
theorem loadY_fadeAudio : loadY fadeAudio 5 16 = List.replicate 52 (1 : ℝ) := by
  unfold loadY loadSeg fadeAudio
  norm_num

/-- The fade condition of `classify_silence_type` holds on 52 constant
samples at `sr = 4`. -/
theorem sdFade_fadeAudio : sdFade (List.replicate 52 (1 : ℝ)) 4 := by
  have hws : ⌊((4 : ℕ) : ℝ) * 0.25⌋₊ = 1 := by
    rw [show (((4 : ℕ) : ℝ) * 0.25) = 1 by norm_num]
    exact Nat.floor_one
  have htake : (List.replicate 52 (1 : ℝ)).take 1 = [1] := by
    rw [List.take_replicate]
    rfl
  have hlast : lastSlice 1 (List.replicate 52 (1 : ℝ)) = [1] := by
    unfold lastSlice
    rw [if_neg one_ne_zero]
    simp [List.drop_replicate]
  refine ⟨?_, ?_, ?_, ?_⟩
  · simp
    norm_num
  · rw [hws, htake, rms_one]
    norm_num
  · rw [hws, hlast, rms_one]
    norm_num
  · unfold sdRatio
    rw [hws, htake, hlast, rms_one]
    norm_num

/-- C3 counterexample: the 11-second interval `[5.0, 16.0]` of a constant
signal (maximal fade evidence) is classified *natural* by
`classify_silence_type` — the fade rule fires before any duration rule — so
the claim that both entry points return abnormal for durations above 10 s
regardless of context is false. -/
theorem c3_counterexample_fade_beats_duration :
    10 < (16 : ℝ) - 5 ∧
      classify_silence_type (some fadeAudio) (5, 16) = "natural" := by
  refine ⟨by norm_num, ?_⟩
  have hf : sdFade (loadY fadeAudio 5 16) 4 := by
    rw [loadY_fadeAudio]
    exact sdFade_fadeAudio
  simp only [classify_silence_type]
  split_ifs with h
  · rfl
  all_goals exact absurd hf h

/-! ## C5 -/

/-- C5 (amended): on successfully loaded audio every entry point returns
either `"natural"` or `"abnormal"` (the rule path defaulting to natural under
maximal uncertainty), but when loading/analysis raises,
`classify_silence_type` catches the exception and returns the third value
`"unknown"`. -/
theorem c5_label_range (lib : LibrosaEnv) (st : ClassifierState)
    (a : AudioFile) (s e : ℝ) (seg : ℝ × ℝ) :
    (classify_blank_rules a s e = "natural" ∨
      classify_blank_rules a s e = "abnormal") ∧
    (classify_blank_ml lib st a s e = "natural" ∨
      classify_blank_ml lib st a s e = "abnormal") ∧
    (classify_silence_type (some a) seg = "natural" ∨
      classify_silence_type (some a) seg = "abnormal") ∧
    classify_silence_type none seg = "unknown" := by
  have hr : ∀ (a' : AudioFile) (s' e' : ℝ),
      classify_blank_rules a' s' e' = "natural" ∨
        classify_blank_rules a' s' e' = "abnormal" := by
    intro a' s' e'
    simp only [classify_blank_rules]
    split_ifs
    · exact Or.inl rfl
    · exact Or.inr rfl
    · exact Or.inl rfl
    · exact Or.inr rfl
    · exact Or.inl rfl
  refine ⟨hr a s e, ?_, ?_, rfl⟩
  · unfold classify_blank_ml
    rcases st.trainedModel with _ | ⟨m, sc⟩
    · exact hr a s e
    · dsimp only
      split_ifs
      · exact Or.inl rfl
      · exact Or.inr rfl
  · simp only [classify_silence_type]
    split_ifs
    · exact Or.inl rfl
    · exact Or.inl rfl
    · exact Or.inr rfl
    · exact Or.inl rfl

/-- C5 counterexample: in the error case (audio loading raises),
`classify_silence_type` returns `"unknown"`, which is neither `"natural"`
nor `"abnormal"` — the label set of the claim does not cover it. -/
theorem c5_counterexample_unknown :
    classify_silence_type none (0, 2) = "unknown" ∧
    classify_silence_type none (0, 2) ≠ "natural" ∧
    classify_silence_type none (0, 2) ≠ "abnormal" := by
  refine ⟨rfl, ?_, ?_⟩ <;>
    · intro h
      rw [show classify_silence_type none (0, 2) = "unknown" from rfl] at h
      exact absurd h (by decide)

/-! ## C6 -/

/-- The feature vector, slot by slot: `extract_features` always produces the
10-element list whose entries are the branch expressions of the source. -/
theorem extract_features_slots (lib : LibrosaEnv) (region : List ℝ) (sr : ℕ)
    (cb ca : Option (List ℝ)) :
    extract_features lib region sr cb ca =
      [some ((region.length : ℝ) / (sr : ℝ)),
       rmsNan region,
       if region.length > 512 then some (lib.spectral_centroid region sr)
         else some 0,
       if region.length > 512 then some (lib.spectral_rolloff region sr)
         else some 0,
       match cb with
         | some c => if c.length > 512 then rmsNan c else some 0
         | none => some 0,
       match cb with
         | some c => if c.length > 512 then some (detect_fade c) else some 0
         | none => some 0,
       match ca with
         | some c => if c.length > 512 then rmsNan c else some 0
         | none => some 0,
       match ca with
         | some c =>
             if c.length > 512 then some (detect_fade c.reverse) else some 0
         | none => some 0,
       match cb, ca with
         | some b, some c => calculate_transition_abruptness b c
         | _, _ => some 0,
       if region.length > 0 then some (lib.zero_crossing_rate region)
         else some 0] := by
  unfold extract_features
  rcases cb with _ | b <;> rcases ca with _ | c <;> dsimp only <;>
    split_ifs <;> rfl

/-- C6: for every region, sample rate and combination of optional contexts,
the feature vector has exactly 10 slots in the fixed schema order; an absent
or at-most-512-sample context contributes 0.0 to its two slots (never null),
a context longer than 512 samples contributes its RMS and fade score, and
the spectral slots are 0 whenever the region has at most 512 samples. -/
theorem c6_feature_schema (lib : LibrosaEnv) (region : List ℝ) (sr : ℕ)
    (cb ca : Option (List ℝ)) :
    (extract_features lib region sr cb ca).length = 10 ∧
    (extract_features lib region sr cb ca)[0]? =
      some (some ((region.length : ℝ) / (sr : ℝ))) ∧
    (extract_features lib region sr cb ca)[1]? = some (rmsNan region) ∧
    (region.length ≤ 512 →
      (extract_features lib region sr cb ca)[2]? = some (some 0) ∧
      (extract_features lib region sr cb ca)[3]? = some (some 0)) ∧
    ((cb = none ∨ ∃ c, cb = some c ∧ c.length ≤ 512) →
      (extract_features lib region sr cb ca)[4]? = some (some 0) ∧
      (extract_features lib region sr cb ca)[5]? = some (some 0)) ∧
    (∀ c, cb = some c → 512 < c.length →
      (extract_features lib region sr cb ca)[4]? = some (rmsNan c) ∧
      (extract_features lib region sr cb ca)[5]? =
        some (some (detect_fade c))) ∧
    ((ca = none ∨ ∃ c, ca = some c ∧ c.length ≤ 512) →
      (extract_features lib region sr cb ca)[6]? = some (some 0) ∧
      (extract_features lib region sr cb ca)[7]? = some (some 0)) ∧
    (∀ c, ca = some c → 512 < c.length →
      (extract_features lib region sr cb ca)[6]? = some (rmsNan c) ∧
      (extract_features lib region sr cb ca)[7]? =
        some (some (detect_fade c.reverse))) ∧
    ((cb = none ∨ ca = none) →
      (extract_features lib region sr cb ca)[8]? = some (some 0)) ∧
    (∀ b c, cb = some b → ca = some c →
      (extract_features lib region sr cb ca)[8]? =
        some (calculate_transition_abruptness b c)) ∧
    (region = [] →
      (extract_features lib region sr cb ca)[9]? = some (some 0)) := by
  rw [extract_features_slots]
  refine ⟨rfl, rfl, rfl, ?_, ?_, ?_, ?_, ?_, ?_, ?_, ?_⟩
  · intro h
    constructor <;>
      · simp only [List.getElem?_cons_succ, List.getElem?_cons_zero]
        rw [if_neg (not_lt.mpr h)]
  · rintro (h | ⟨c', hc, hlen⟩)
    · subst h
      exact ⟨rfl, rfl⟩
    · subst hc
      constructor <;>
        · simp only [List.getElem?_cons_succ, List.getElem?_cons_zero]
          rw [if_neg (not_lt.mpr hlen)]
  · intro c' hc hlen
    subst hc
    constructor <;>
      · simp only [List.getElem?_cons_succ, List.getElem?_cons_zero]
        rw [if_pos hlen]
  · rintro (h | ⟨c', hc, hlen⟩)
    · subst h
      exact ⟨rfl, rfl⟩
    · subst hc
      constructor <;>
        · simp only [List.getElem?_cons_succ, List.getElem?_cons_zero]
          rw [if_neg (not_lt.mpr hlen)]
  · intro c' hc hlen
    subst hc
    constructor <;>
      · simp only [List.getElem?_cons_succ, List.getElem?_cons_zero]
        rw [if_pos hlen]
  · rintro (h | h) <;> subst h
    · rfl
    · rcases cb with _ | b <;> rfl
  · intro b' c' hb hc
    subst hb
    subst hc
    rfl
  · intro h
    subst h
    rfl

theorem c6_witness :
    (extract_features lib0 [1] 7 (some [2]) none).length = 10 ∧
    (extract_features lib0 [1] 7 (some [2]) none)[4]? = some (some 0) ∧
    (extract_features lib0 [1] 7 (some [2]) none)[8]? = some (some 0) :=
  ⟨(c6_feature_schema lib0 [1] 7 (some [2]) none).1,
   ((c6_feature_schema lib0 [1] 7 (some [2]) none).2.2.2.2.1
     (Or.inr ⟨[2], rfl, by decide⟩)).1,
   (c6_feature_schema lib0 [1] 7 (some [2]) none).2.2.2.2.2.2.2.2.1
     (Or.inr rfl)⟩

/-! ## C2 -/

/-- On the degenerate inputs of C2, `_calculate_transition_abruptness` is
NaN: with `before = [1]` and `after = []` the window size is 0, Python's
`before[-0:]` is all of `before` (energy 1 > 0), `after[:0]` is empty so its
energy is NaN, and `|1 - NaN| / 1` is NaN. -/
theorem abrupt_one_nil : calculate_transition_abruptness [(1 : ℝ)] [] = none := by
  simp only [calculate_transition_abruptness]
  norm_num [lastSlice, pymax, fgt, fsub, fabsF, fdivF, rmsNan_one, rmsNan_nil]

/-- C2 (code bug): the feature vector is *not* NaN-free on degenerate
inputs.  For an empty region, `rms_energy` (slot 1) is `np.mean` of an empty
array — NaN.  For an empty (but present) after-context, the transition
abruptness (slot 8) is NaN.  The spec requires such degenerate cases to
resolve to the default 0.0 and never propagate NaN. -/
theorem c2_nan_counterexamples (lib : LibrosaEnv) (sr : ℕ) :
    (extract_features lib [] sr none none)[1]? = some none ∧
    (extract_features lib [(1 : ℝ)] sr (some [1]) (some []))[8]? = some none := by
  constructor
  · rw [extract_features_slots]
    simp only [List.getElem?_cons_succ, List.getElem?_cons_zero]
    rw [rmsNan_nil]
  · rw [extract_features_slots]
    simp only [List.getElem?_cons_succ, List.getElem?_cons_zero]
    rw [abrupt_one_nil]

end BlankEngine
